import Mathlib

/-!
Verification development for the frame-backend prompt-reframing server
(source: src/server.js). JavaScript strings are modelled as Lean `String`
values, operated on through their underlying `List Char` so that every
function is structurally recursive and kernel-evaluable. JSON response
objects are modelled by an explicit `Json` inductive, since the claims
under study are about the exact field shapes of the responses.
-/

/-! ## Character-level string utilities (models of the JS built-ins used) -/

/-- Model of the JS word-character class from a regex: `[A-Za-z0-9_]`.
`Char.isAlphanum` is ASCII-only, matching the JS class exactly. -/
def isWordChar (c : Char) : Bool := c.isAlphanum || c = '_'

/-- Model of JS `String.prototype.toLowerCase` restricted to ASCII
(every keyword the source compares against is ASCII). -/
def lowerChar (c : Char) : Char :=
  if c.toNat ≥ 65 && c.toNat ≤ 90 then Char.ofNat (c.toNat + 32) else c

/-- Lower-case a character list, the model of `prompt.toLowerCase()`. -/
def toLowerChars (cs : List Char) : List Char := cs.map lowerChar

/-- Model of JS `str.split(sep)` for a single-character separator, as used
at `prompt.split(' ')` and `prompt.split('\n')` in the source. Splitting the
empty string yields `[""]`, as in JS. -/
def splitOnChar (sep : Char) : List Char → List (List Char)
  | [] => [[]]
  | c :: rest =>
    let r := splitOnChar sep rest
    if c = sep then [] :: r
    else
      match r with
      | [] => [[c]]
      | g :: gs => (c :: g) :: gs

/-- Model of JS `String.prototype.trim` (whitespace stripped from both
ends; whitespace is modelled by `Char.isWhitespace`). -/
def trimChars (cs : List Char) : List Char :=
  ((cs.dropWhile Char.isWhitespace).reverse.dropWhile Char.isWhitespace).reverse

/-- Model of JS `Array.prototype.join('\n')` on a list of lines. -/
def joinLines : List (List Char) → List Char
  | [] => []
  | [g] => g
  | g :: gs => g ++ '\n' :: joinLines gs

/-- Model of JS `String.prototype.includes`: `needle` occurs as a
contiguous substring of the list. -/
def includesSub (needle : List Char) : List Char → Bool
  | [] => needle.isEmpty
  | c :: t => needle.isPrefixOf (c :: t) || includesSub needle t

/-- String-level wrapper for `includesSub`. -/
def strIncludes (hay needle : String) : Bool := includesSub needle.data hay.data

/-! ## Word-boundary regex matching

The ambiguity detector uses regexes of the form `\b(w1|w2|...)\b` with the
`i` flag. Every alternative in the source starts and ends with a word
character, so a `\b` before the match holds exactly when the preceding
character is absent or not a word character, and symmetrically after. -/

/-- `\b` immediately before a word character: the previous character is
absent (start of string) or not a word character. -/
def boundaryBefore : Option Char → Bool
  | none => true
  | some c => !isWordChar c

/-- The phrase matches at the head of `cs` and is followed by a word
boundary (end of string or a non-word character). -/
def wholeWordAt (phrase cs : List Char) : Bool :=
  phrase.isPrefixOf cs &&
    (match cs.drop phrase.length with
     | [] => true
     | d :: _ => !isWordChar d)

/-- Scan every position of the text for a word-bounded occurrence of the
phrase; `prev` is the character just before the current position. -/
def wholeWordScan (phrase : List Char) : Option Char → List Char → Bool
  | _, [] => false
  | prev, c :: rest =>
    (boundaryBefore prev && wholeWordAt phrase (c :: rest)) ||
      wholeWordScan phrase (some c) rest

/-- Model of `new RegExp("\\b" + phrase + "\\b", "i").test(text)` for a
phrase that starts and ends with word characters: some position of the
text carries a case-insensitive, word-bounded occurrence of the phrase. -/
def containsWholeWord (text phrase : String) : Bool :=
  wholeWordScan (toLowerChars phrase.data) none (toLowerChars text.data)

/-! ## Ambiguity detection (src/server.js, `detectAmbiguity`, lines 253-291) -/

/-- The alternatives of the `vagueQuantifiers` regex
`\b(some|few|many|several|a bit|lots of)\b` (flags `gi`). -/
def vagueQuantifierWords : List String :=
  ["some", "few", "many", "several", "a bit", "lots of"]

/-- Model of `vagueQuantifiers.test(prompt)`: the regex alternation holds
iff some alternative matches word-bounded, case-insensitively. -/
def vagueQuantifiersTest (prompt : String) : Bool :=
  vagueQuantifierWords.any (fun w => containsWholeWord prompt w)

/-- The alternatives of the `formatKeywords` regex
`\b(list|table|summary|paragraph|code|json|steps)\b` (flag `i`). -/
def formatKeywordWords : List String :=
  ["list", "table", "summary", "paragraph", "code", "json", "steps"]

/-- Model of `formatKeywords.test(prompt)`. -/
def formatKeywordsTest (prompt : String) : Bool :=
  formatKeywordWords.any (fun w => containsWholeWord prompt w)

/-- The negative lookahead `(?!how|why|when|where)` of the `broadTopics`
regex: fails exactly when the remaining text starts with one of the four
words (as a prefix, not a whole word; the text is already lower-cased). -/
def scopeLookaheadOk (cs : List Char) : Bool :=
  !("how".data.isPrefixOf cs || "why".data.isPrefixOf cs ||
    "when".data.isPrefixOf cs || "where".data.isPrefixOf cs)

/-- Matching of `(?!how|why|when|where)\w+` after at least one consumed
whitespace character, with backtracking over how much whitespace `\s+`
consumes: either the lookahead and a word character succeed here, or one
more whitespace character is consumed. -/
def scopeAfterOneSpace : List Char → Bool
  | [] => false
  | d :: ds =>
    (scopeLookaheadOk (d :: ds) && isWordChar d) ||
      (d.isWhitespace && scopeAfterOneSpace ds)

/-- Matching of `\s+(?!how|why|when|where)\w+` against the text following
a broad-topic opener. -/
def scopeTail : List Char → Bool
  | [] => false
  | c :: cs => c.isWhitespace && scopeAfterOneSpace cs

/-- If `pre` is a prefix of `cs`, the remaining text, else `none`. -/
def dropPrefixChars (pre cs : List Char) : Option (List Char) :=
  if pre.isPrefixOf cs then some (cs.drop pre.length) else none

/-- One of the three opener alternatives of the `broadTopics` regex
matches at the current position, followed by `\s+(?!...)\w+`. -/
def broadTopicsAt (cs : List Char) : Bool :=
  (match dropPrefixChars "explain".data cs with
   | some rest => scopeTail rest
   | none => false) ||
  (match dropPrefixChars "describe".data cs with
   | some rest => scopeTail rest
   | none => false) ||
  (match dropPrefixChars "tell me about".data cs with
   | some rest => scopeTail rest
   | none => false)

/-- Scan of the whole text for a match of the `broadTopics` regex; the
leading `\b` requires the previous character to be absent or non-word
(all three openers start with a word character). -/
def broadTopicsScan : Option Char → List Char → Bool
  | _, [] => false
  | prev, c :: rest =>
    (boundaryBefore prev && broadTopicsAt (c :: rest)) ||
      broadTopicsScan (some c) rest

/-- Model of `broadTopics.test(prompt)` for the regex
`\b(explain|describe|tell me about)\s+(?!how|why|when|where)\w+` (flag `i`). -/
def broadTopicsTest (prompt : String) : Bool :=
  broadTopicsScan none (toLowerChars prompt.data)

/-- One clarification question produced by the ambiguity detector. -/
structure AmbiguityQuestion where
  type : String
  question : String
  options : List String
  deriving DecidableEq, Repr

/-- The result shape of `detectAmbiguity`. -/
structure DetectResult where
  hasAmbiguity : Bool
  questions : List AmbiguityQuestion
  deriving DecidableEq, Repr

/-- The vague-quantifier finding pushed at src/server.js lines 259-263. -/
def vagueQuantifierQuestion : AmbiguityQuestion :=
  { type := "vague_quantifier"
    question := "How many examples or items would you like?"
    options := ["1-2", "3-5", "5-10", "More than 10"] }

/-- The undefined-scope finding pushed at src/server.js lines 269-273. -/
def undefinedScopeQuestion : AmbiguityQuestion :=
  { type := "undefined_scope"
    question := "What level of detail do you need?"
    options := ["Brief overview", "Moderate detail", "In-depth explanation"] }

/-- The missing-format finding pushed at src/server.js lines 279-283. -/
def missingFormatQuestion : AmbiguityQuestion :=
  { type := "missing_format"
    question := "How should the output be formatted?"
    options := ["Bullet points", "Paragraph", "Step-by-step", "Table"] }

/-- Translation of `detectAmbiguity` (src/server.js lines 253-291): the
three checks push their findings in order into `ambiguities`; the result
reports `hasAmbiguity` as non-emptiness and `slice(0, 3)` as `take 3`. -/
def detectAmbiguity (prompt : String) : DetectResult :=
  let ambiguities : List AmbiguityQuestion :=
    (if vagueQuantifiersTest prompt then [vagueQuantifierQuestion] else []) ++
    (if broadTopicsTest prompt && decide (prompt.length < 50) then
      [undefinedScopeQuestion] else []) ++
    (if !formatKeywordsTest prompt &&
        decide ((splitOnChar ' ' prompt.data).length > 10) then
      [missingFormatQuestion] else [])
  { hasAmbiguity := decide (ambiguities.length > 0)
    questions := ambiguities.take 3 }

/-! ## Image-generation intent (src/server.js, lines 404-419) -/

/-- `imageKeywords` from src/server.js line 408. -/
def imageKeywords : List String :=
  ["image", "picture", "photo", "visual", "graphic", "illustration",
   "artwork", "thumbnail", "poster", "banner"]

/-- `creationVerbs` from src/server.js line 409. -/
def creationVerbs : List String :=
  ["create", "generate", "make", "design", "draw", "produce", "craft"]

/-- `qualityKeywords` from src/server.js line 410. -/
def qualityKeywords : List String :=
  ["high quality", "vibrant", "eye-catching", "ultra", "stunning",
   "dramatic", "cinematic"]

/-- Translation of `isImageGenerationRequest` (src/server.js lines
404-419): lower-case the prompt, test substring containment against the
three keyword lists, return image AND (creation OR quality). -/
def isImageGenerationRequest (prompt : String) : Bool :=
  let lowerPrompt := toLowerChars prompt.data
  let hasImageKeyword := imageKeywords.any (fun keyword => includesSub keyword.data lowerPrompt)
  let hasCreationVerb := creationVerbs.any (fun verb => includesSub verb.data lowerPrompt)
  let hasQualityKeyword := qualityKeywords.any (fun keyword => includesSub keyword.data lowerPrompt)
  hasImageKeyword && (hasCreationVerb || hasQualityKeyword)

example : isImageGenerationRequest "Create a stunning vibrant poster of a dragon" = true := by decide
example : isImageGenerationRequest "Explain how TCP congestion control works" = false := by decide
example : detectAmbiguity "Give me some examples" =
    { hasAmbiguity := true, questions := [vagueQuantifierQuestion] } := by decide

/-! ## JSON response values

The handler builds untyped JS objects; their exact field shapes are what
several claims are about, so responses are modelled by an explicit JSON
value type. Numbers in the responses are all non-negative integers. -/

/-- A JSON value as built by the server. -/
inductive Json where
  | str (s : String)
  | num (n : Nat)
  | arr (items : List Json)
  | obj (fields : List (String × Json))

/-- First binding of a key in an object field list (JS objects never hold
a duplicate key, and property lookup returns the bound value). -/
def lookupField : List (String × Json) → String → Option Json
  | [], _ => none
  | (k, v) :: rest, key => if k = key then some v else lookupField rest key

/-- Property access `j[key]` on an object; `none` on a missing key or a
non-object. -/
def Json.getField : Json → String → Option Json
  | .obj fields, key => lookupField fields key
  | _, _ => none

/-- Two-step property access `j[k1][k2]`. -/
def Json.getField2 (j : Json) (k1 k2 : String) : Option Json :=
  (j.getField k1).bind (fun x => x.getField k2)

/-- Array indexing `j[i]` on an array value. -/
def Json.getIndex : Json → Nat → Option Json
  | .arr items, i => items.get? i
  | _, _ => none

/-- JS property assignment `obj[key] = v`: replace the binding if the key
is present, append it otherwise. -/
def setFieldList (fields : List (String × Json)) (key : String) (v : Json) :
    List (String × Json) :=
  match fields with
  | [] => [(key, v)]
  | (k, w) :: rest =>
    if k = key then (k, v) :: rest else (k, w) :: setFieldList rest key v

/-- Property assignment on a JSON value (identity on non-objects). -/
def Json.setField : Json → String → Json → Json
  | .obj fields, key, v => .obj (setFieldList fields key v)
  | j, _, _ => j

/-! ## Response formatting (src/server.js, lines 297-398) -/

/-- The JS test `line.trim().startsWith('#')` from src/server.js line 384. -/
def lineIsHeading (l : List Char) : Bool :=
  match trimChars l with
  | c :: _ => c = '#'
  | [] => false

/-- Translation of `extractSystemPrompt`'s accumulation loop
(src/server.js lines 383-388): push lines until a line whose trim starts
with `#` is met while the accumulator is already non-empty. -/
def extractSystemPromptLoop : List (List Char) → List (List Char) → List (List Char)
  | [], acc => acc.reverse
  | l :: ls, acc =>
    if lineIsHeading l && decide (acc.length > 0) then acc.reverse
    else extractSystemPromptLoop ls (l :: acc)

/-- Translation of `extractSystemPrompt` (src/server.js lines 378-391):
split on newlines, accumulate lines before the first heading boundary,
join and trim; the JS `|| prompt` returns the whole prompt when the
trimmed join is empty. -/
def extractSystemPrompt (prompt : String) : String :=
  let lines := splitOnChar '\n' prompt.data
  let systemContent := extractSystemPromptLoop lines []
  let joined := trimChars (joinLines systemContent)
  if joined.isEmpty then prompt else String.mk joined

/-- Translation of `extractUserTask` (src/server.js lines 394-398):
returns the full prompt. -/
def extractUserTask (prompt : String) : String := prompt

/-- The model-specific `api_ready` payload attached by the `switch` in
`formatForModel` (src/server.js lines 312-372). -/
def apiReadyFor (model restructuredPrompt : String) : Json :=
  match model with
  | "claude" =>
    Json.obj [("model", .str "claude-3-5-sonnet-20241022"),
      ("max_tokens", .num 4096),
      ("messages", .arr [Json.obj [("role", .str "user"),
        ("content", .str restructuredPrompt)]])]
  | "chatgpt" =>
    Json.obj [("model", .str "gpt-4o"),
      ("messages", .arr [
        Json.obj [("role", .str "system"),
          ("content", .str (extractSystemPrompt restructuredPrompt))],
        Json.obj [("role", .str "user"),
          ("content", .str (extractUserTask restructuredPrompt))]]),
      ("temperature", .num 0)]
  | "gemini" =>
    Json.obj [("model", .str "gemini-2.5-flash"),
      ("contents", Json.obj [("parts",
        .arr [Json.obj [("text", .str restructuredPrompt)]])])]
  | "perplexity" =>
    Json.obj [("model", .str "sonar"),
      ("messages", .arr [Json.obj [("role", .str "system"),
        ("content", .str restructuredPrompt)]])]
  | _ => Json.obj [("prompt", .str restructuredPrompt)]

/-- Translation of `formatForModel` (src/server.js lines 297-375). The JS
code creates `baseResponse` and then assigns `reframed.api_ready`; the
final object is written here directly. `new Date().toISOString()` is
nondeterministic and passed in as the `timestamp` parameter. -/
def formatForModel (model restructuredPrompt originalPrompt timestamp : String) : Json :=
  Json.obj [
    ("model", .str model),
    ("original_prompt", .str originalPrompt),
    ("reframed", Json.obj [
      ("raw", .str restructuredPrompt),
      ("api_ready", apiReadyFor model restructuredPrompt)]),
    ("metadata", Json.obj [
      ("timestamp", .str timestamp),
      ("original_length", .num originalPrompt.length),
      ("reframed_length", .num restructuredPrompt.length)])]

/-- The system-role message content inside the chatgpt `api_ready`
payload of a formatted response: `reframed.api_ready.messages[0].content`. -/
def chatgptSystemContent (j : Json) : Option Json :=
  ((j.getField2 "reframed" "api_ready").bind (fun a => a.getField "messages")).bind
    (fun m => (m.getIndex 0).bind (fun msg => msg.getField "content"))

/-- The user-role message content inside the chatgpt `api_ready` payload:
`reframed.api_ready.messages[1].content`. -/
def chatgptUserContent (j : Json) : Option Json :=
  ((j.getField2 "reframed" "api_ready").bind (fun a => a.getField "messages")).bind
    (fun m => (m.getIndex 1).bind (fun msg => msg.getField "content"))

/-! ## The reframe route handler (src/server.js, lines 514-583) -/

/-- The own keys of the `MODEL_TEMPLATES` object literal (src/server.js
lines 128-247); the instruction text itself never reaches a response and
is identified here only by its key (see `SystemPromptChoice`). -/
def MODEL_TEMPLATES_keys : List String :=
  ["chatgpt", "claude", "gemini", "perplexity", "others"]

/-- The property names every plain JS object literal inherits from
`Object.prototype` (the standard twelve). A bracket lookup such as
`MODEL_TEMPLATES[model]` walks the prototype chain, so for these names it
yields the inherited method (or, for `__proto__`, the prototype object)
even though they are not own keys of the template table. -/
def OBJECT_PROTOTYPE_keys : List String :=
  ["constructor", "hasOwnProperty", "isPrototypeOf", "propertyIsEnumerable",
   "toLocaleString", "toString", "valueOf", "__proto__",
   "__defineGetter__", "__defineSetter__", "__lookupGetter__", "__lookupSetter__"]

/-- Truthiness of the JS lookup `MODEL_TEMPLATES[model]` (src/server.js
line 522): truthy for the five own keys, and also for the properties
inherited from `Object.prototype`, all of which are functions or objects
and hence truthy. -/
def MODEL_TEMPLATES_lookupTruthy (model : String) : Bool :=
  MODEL_TEMPLATES_keys.contains model || OBJECT_PROTOTYPE_keys.contains model

/-- Which system instruction is sent to the completion gateway: the
shared image-generation template or the per-model template
(src/server.js lines 550-552). The template bodies are opaque
configuration text that never appears in any response. -/
inductive SystemPromptChoice where
  | imageGeneration
  | template (model : String)
  deriving DecidableEq, Repr

/-- The request the handler issues to the OpenAI chat-completion gateway
(src/server.js lines 555-565). -/
structure GatewayCall where
  model : String
  temperature : Nat
  systemPrompt : SystemPromptChoice
  userMessage : String
  deriving DecidableEq, Repr

/-- Translation of the clarification-context construction (src/server.js
lines 538-544): a header line followed by one `- key: value` line per
clarification entry, empty when there are no clarifications. -/
def clarificationContext (clarifications : List (String × String)) : String :=
  if clarifications.length > 0 then
    clarifications.foldl
      (fun acc kv => acc ++ "- " ++ kv.1 ++ ": " ++ kv.2 ++ "\n")
      "\n\nClarifications provided by user:\n"
  else ""

/-- The body of a reframe request (`req.body` at src/server.js line 516);
an absent `raw_prompt` or `model` is modelled by the empty string and
absent clarifications by the empty list, matching the JS falsiness tests. -/
structure ReframeRequest where
  raw_prompt : String
  model : String
  clarifications : List (String × String)
  deriving DecidableEq, Repr

/-- An HTTP response from the handler: a status-400 rejection
(`res.status(400).json(...)`) or a status-200 body (`res.json(...)`). -/
inductive HttpResponse where
  | badRequest (body : Json)
  | ok (body : Json)

/-- The JSON body of either kind of response. -/
def HttpResponse.body : HttpResponse → Json
  | .badRequest b => b
  | .ok b => b

/-- Whether the response is a status-200 success. -/
def HttpResponse.isOk : HttpResponse → Bool
  | .ok _ => true
  | .badRequest _ => false

/-- Translation of the `/api/reframe` handler (src/server.js lines
514-583). `hasApiKey` models the `process.env.OPENAI_API_KEY` presence
test at line 527; `gateway` models the outcome of the awaited OpenAI call
(`Except.error` for any thrown failure, caught at line 574); `timestamp`
models `new Date().toISOString()`. The validation
`!model || !MODEL_TEMPLATES[model]` at line 522 is a prototype-chain
lookup, so identifiers naming inherited `Object.prototype` properties
pass it (for such a model the `.systemPrompt` read at line 552 yields JS
`undefined`; the `SystemPromptChoice.template` value records the lookup
key). Besides the response, the function returns the gateway call that
was issued, `none` when the gateway was never invoked. -/
def reframeHandler (hasApiKey : Bool) (gateway : Except String String)
    (timestamp : String) (req : ReframeRequest) :
    HttpResponse × Option GatewayCall :=
  if req.raw_prompt = "" then
    (.badRequest (Json.obj [("error", .str "Prompt is required")]), none)
  else if !(MODEL_TEMPLATES_lookupTruthy req.model) then
    (.badRequest (Json.obj [("error", .str "Invalid model specified")]), none)
  else if !hasApiKey then
    (.ok (Json.obj [
      ("restructured_prompt", .str req.raw_prompt),
      ("model", .str req.model),
      ("error", .str "API key not configured"),
      ("timestamp", .str timestamp)]), none)
  else
    let call : GatewayCall :=
      { model := "gpt-4o-mini"
        temperature := 0
        systemPrompt :=
          if isImageGenerationRequest req.raw_prompt then .imageGeneration
          else .template req.model
        userMessage :=
          "Original prompt: " ++ req.raw_prompt ++
            clarificationContext req.clarifications }
    match gateway with
    | .ok content =>
      (.ok (formatForModel req.model (String.mk (trimChars content.data))
        req.raw_prompt timestamp), some call)
    | .error _ =>
      (.ok ((formatForModel req.model req.raw_prompt req.raw_prompt
        timestamp).setField "error" (.str "Automatic restructuring unavailable")),
        some call)

/-! ## Specification-side definitions

These definitions follow the wording of the specification (not the
source) and exist to be compared with the translated code above. -/

/-- The boundary search as the specification words it: scan lines,
accumulating, and stop at a markdown heading line met after at least one
line has been accumulated. `some acc` is the accumulated content before
the boundary; `none` means no boundary exists. -/
def collectUntilHeading : List (List Char) → List (List Char) → Option (List (List Char))
  | [], _ => none
  | l :: ls, acc =>
    if lineIsHeading l && decide (acc.length > 0) then some acc.reverse
    else collectUntilHeading ls (l :: acc)

/-- The system-content computation exactly as the claim states it:
everything before the boundary is the system content, and when no
boundary exists the full restructured text is used. -/
def extractSystemPromptSpec (prompt : String) : String :=
  match collectUntilHeading (splitOnChar '\n' prompt.data) [] with
  | some before => String.mk (joinLines before)
  | none => prompt

/-- The system-content computation as amended to match the source:
the accumulated content before the boundary (all lines when no boundary
exists) is joined and whitespace-trimmed, and when that trim is empty the
full restructured text is used instead. -/
def extractSystemPromptAmendedSpec (prompt : String) : String :=
  let lines := splitOnChar '\n' prompt.data
  let joined :=
    match collectUntilHeading lines [] with
    | some before => joinLines before
    | none => joinLines lines
  if (trimChars joined).isEmpty then prompt else String.mk (trimChars joined)

/-- Split a character list at every whitespace character. -/
def splitByWhitespace : List Char → List (List Char)
  | [] => [[]]
  | c :: rest =>
    let r := splitByWhitespace rest
    if c.isWhitespace then [] :: r
    else
      match r with
      | [] => [[c]]
      | g :: gs => (c :: g) :: gs

/-- The tokenizer the specification's words describe for the
missing-format rule: the maximal runs of non-whitespace characters, i.e.
the whitespace-separated tokens of the prompt. -/
def whitespaceTokens (s : String) : List (List Char) :=
  (splitByWhitespace s.data).filter (fun t => !t.isEmpty)


/-! ## Helper lemmas -/

/-- The source's accumulation loop returns the content before the heading
boundary when one exists, and all remaining lines otherwise. -/
theorem extractSystemPromptLoop_eq (ls : List (List Char)) :
    ∀ acc, extractSystemPromptLoop ls acc =
      match collectUntilHeading ls acc with
      | some before => before
      | none => acc.reverse ++ ls := by
  induction ls with
  | nil => intro acc; simp [extractSystemPromptLoop, collectUntilHeading]
  | cons l ls ih =>
    intro acc
    by_cases h : (lineIsHeading l && decide (acc.length > 0)) = true
    · simp [extractSystemPromptLoop, collectUntilHeading, h]
    · simp only [extractSystemPromptLoop, collectUntilHeading, h, if_neg,
        Bool.not_eq_true]
      rw [ih]
      cases collectUntilHeading ls (l :: acc) <;> simp

/-- The source's `extractSystemPrompt` computes exactly the amended
specification: join-and-trim of the accumulated content, with fallback to
the whole prompt when the trim is empty. -/
theorem extractSystemPrompt_eq_amendedSpec (p : String) :
    extractSystemPrompt p = extractSystemPromptAmendedSpec p := by
  unfold extractSystemPrompt extractSystemPromptAmendedSpec
  simp only [extractSystemPromptLoop_eq]
  cases hc : collectUntilHeading (splitOnChar '\n' p.data) [] <;> simp [hc]

/-! ## Claim theorems -/

/-- Claim C8: `isImageGenerationRequest` lower-cases the prompt and
returns true iff an image keyword occurs as a substring and a creation
verb or quality descriptor occurs as a substring; in particular true for
the stunning-poster prompt and false for the TCP prompt. -/
theorem c8_image_intent_characterization :
    (∀ prompt : String,
      isImageGenerationRequest prompt = true ↔
        ((∃ k ∈ imageKeywords, includesSub k.data (toLowerChars prompt.data) = true) ∧
         ((∃ v ∈ creationVerbs, includesSub v.data (toLowerChars prompt.data) = true) ∨
          (∃ q ∈ qualityKeywords, includesSub q.data (toLowerChars prompt.data) = true))))
  ∧ isImageGenerationRequest "Create a stunning vibrant poster of a dragon" = true
  ∧ isImageGenerationRequest "Explain how TCP congestion control works" = false := by
  refine ⟨fun prompt => ?_, by decide, by decide⟩
  simp [isImageGenerationRequest, List.any_eq_true]

/-- Claim C9: every result built by `formatForModel` (the success shape,
used by both the generation-success and generation-failure paths) has
`metadata.original_length` equal to the length of `original_prompt` and
`metadata.reframed_length` equal to the length of `reframed.raw`. -/
theorem c9_metadata_lengths (model restructured original ts : String) :
    (formatForModel model restructured original ts).getField "original_prompt"
        = some (Json.str original)
  ∧ (formatForModel model restructured original ts).getField2 "reframed" "raw"
        = some (Json.str restructured)
  ∧ (formatForModel model restructured original ts).getField2 "metadata" "original_length"
        = some (Json.num original.length)
  ∧ (formatForModel model restructured original ts).getField2 "metadata" "reframed_length"
        = some (Json.num restructured.length) :=
  ⟨rfl, rfl, rfl, rfl⟩

/-- Claim C10: for every prompt, `detectAmbiguity` reports `hasAmbiguity`
iff the question list is non-empty, and the finding types form a
subsequence of the fixed order vague_quantifier, undefined_scope,
missing_format (hence no type occurs twice). -/
theorem c10_detect_invariants (prompt : String) :
    ((detectAmbiguity prompt).hasAmbiguity = true ↔
      (detectAmbiguity prompt).questions ≠ [])
  ∧ List.Sublist ((detectAmbiguity prompt).questions.map (fun q => q.type))
      ["vague_quantifier", "undefined_scope", "missing_format"] := by
  unfold detectAmbiguity
  cases h1 : vagueQuantifiersTest prompt <;>
  cases h2 : (broadTopicsTest prompt && decide (prompt.length < 50)) <;>
  cases h3 : (!formatKeywordsTest prompt &&
      decide ((splitOnChar ' ' prompt.data).length > 10)) <;>
    simp [h1, h2, h3, vagueQuantifierQuestion, undefinedScopeQuestion,
      missingFormatQuestion]

/-- Claim C5: every prompt containing one of the vague-quantifier words
as a case-insensitive whole word gets a `vague_quantifier` finding with
the stated question and options. -/
theorem c5_vague_quantifier_fires (prompt : String)
    (h : ∃ w ∈ vagueQuantifierWords, containsWholeWord prompt w = true) :
    vagueQuantifierQuestion ∈ (detectAmbiguity prompt).questions := by
  have ht : vagueQuantifiersTest prompt = true := by
    simpa [vagueQuantifiersTest, List.any_eq_true] using h
  unfold detectAmbiguity
  cases h2 : (broadTopicsTest prompt && decide (prompt.length < 50)) <;>
  cases h3 : (!formatKeywordsTest prompt &&
      decide ((splitOnChar ' ' prompt.data).length > 10)) <;>
    simp [ht, h2, h3]

/-- Witness for C5 at the concrete prompt "Give me some examples". -/
theorem c5_vague_quantifier_fires_witness :
    vagueQuantifierQuestion ∈ (detectAmbiguity "Give me some examples").questions :=
  c5_vague_quantifier_fires "Give me some examples" ⟨"some", by decide, by decide⟩

/-- Claim C6: every prompt of length under 50 matching the broad-topic
opener regex gets an `undefined_scope` finding. -/
theorem c6_undefined_scope_fires (prompt : String)
    (h1 : broadTopicsTest prompt = true) (h2 : prompt.length < 50) :
    undefinedScopeQuestion ∈ (detectAmbiguity prompt).questions := by
  unfold detectAmbiguity
  cases hv : vagueQuantifiersTest prompt <;>
  cases h3 : (!formatKeywordsTest prompt &&
      decide ((splitOnChar ' ' prompt.data).length > 10)) <;>
    simp [h1, h2, hv, h3]

/-- Witness for C6 at the concrete prompt "explain quantum computing". -/
theorem c6_undefined_scope_fires_witness :
    undefinedScopeQuestion ∈ (detectAmbiguity "explain quantum computing").questions :=
  c6_undefined_scope_fires "explain quantum computing" (by decide) (by decide)

/-- Claim C7, counterexample: a prompt of 11 whitespace-separated tokens
(newline-separated) with no format keyword for which `detectAmbiguity`
nevertheless yields no `missing_format` finding, because the source
counts `prompt.split(' ')` segments (single spaces only), not
whitespace-separated tokens. -/
theorem c7_token_count_counterexample :
    (whitespaceTokens "a\nb\nc\nd\ne\nf\ng\nh\ni\nj\nk").length > 10
  ∧ formatKeywordsTest "a\nb\nc\nd\ne\nf\ng\nh\ni\nj\nk" = false
  ∧ missingFormatQuestion ∉
      (detectAmbiguity "a\nb\nc\nd\ne\nf\ng\nh\ni\nj\nk").questions := by
  decide

/-- Claim C7 as amended: for every prompt with more than 10 segments
under `split(' ')` (single-space splitting, the source's count) and no
format keyword, `detectAmbiguity` includes the `missing_format` finding. -/
theorem c7_missing_format_amended (prompt : String)
    (h1 : formatKeywordsTest prompt = false)
    (h2 : (splitOnChar ' ' prompt.data).length > 10) :
    missingFormatQuestion ∈ (detectAmbiguity prompt).questions := by
  unfold detectAmbiguity
  cases hv : vagueQuantifiersTest prompt <;>
  cases hb : (broadTopicsTest prompt && decide (prompt.length < 50)) <;>
    simp [h1, h2, hv, hb]

/-- Witness for the amended C7 at a concrete 11-word prompt. -/
theorem c7_missing_format_amended_witness :
    missingFormatQuestion ∈
      (detectAmbiguity "please give an overview of the topic in your own words").questions :=
  c7_missing_format_amended "please give an overview of the topic in your own words"
    (by decide) (by decide)

/-- Claim C4, counterexample: "toString" is outside the recognized model
set, yet the lookup `MODEL_TEMPLATES["toString"]` finds the inherited
(truthy) `Object.prototype` method, so validation passes: the handler
answers status 200 (on gateway failure, the degraded `formatForModel`
body with the error field set) and a gateway call IS issued — not the
transport-level InvalidModel rejection the claim asserts for every
identifier outside the set. -/
theorem c4_prototype_counterexample :
    "toString" ∉ MODEL_TEMPLATES_keys
  ∧ ((reframeHandler true (Except.error "err") "T0"
        ⟨"Write a poem", "toString", []⟩).1.isOk = true)
  ∧ ((reframeHandler true (Except.error "err") "T0"
        ⟨"Write a poem", "toString", []⟩).1.body.getField "error"
        = some (Json.str "Automatic restructuring unavailable"))
  ∧ ((reframeHandler true (Except.error "err") "T0"
        ⟨"Write a poem", "toString", []⟩).2.isSome = true) :=
  ⟨by decide, rfl, rfl, rfl⟩

/-- Claim C4 as amended: an empty `raw_prompt` is rejected with status
400 "Prompt is required" (MissingPrompt), and a non-empty prompt with a
model identifier outside the recognized set that is also not the name of
a property inherited from `Object.prototype` is rejected with status 400
"Invalid model specified" (InvalidModel); in both cases the result is
independent of the API-key flag and the gateway, and no gateway call is
issued. -/
theorem c4_validation_rejections :
    (∀ (model ts : String) (clar : List (String × String)) (hasKey : Bool)
        (g : Except String String),
      reframeHandler hasKey g ts ⟨"", model, clar⟩ =
        (HttpResponse.badRequest (Json.obj [("error", Json.str "Prompt is required")]),
          none))
  ∧ (∀ (raw model ts : String) (clar : List (String × String)) (hasKey : Bool)
        (g : Except String String), raw ≠ "" →
      model ∉ MODEL_TEMPLATES_keys →
      model ∉ OBJECT_PROTOTYPE_keys →
      reframeHandler hasKey g ts ⟨raw, model, clar⟩ =
        (HttpResponse.badRequest (Json.obj [("error", Json.str "Invalid model specified")]),
          none)) := by
  constructor
  · intro model ts clar hasKey g
    rfl
  · intro raw model ts clar hasKey g h1 h2 h3
    simp [reframeHandler, MODEL_TEMPLATES_lookupTruthy, h1, h2, h3]

/-- Witness for the amended C4 at the concrete inputs of the
specification: `raw_prompt = ""` and `model = "unknown"`. -/
theorem c4_validation_rejections_witness :
    reframeHandler true (Except.ok "X") "T0" ⟨"", "claude", []⟩ =
      (HttpResponse.badRequest (Json.obj [("error", Json.str "Prompt is required")]),
        none)
  ∧ reframeHandler true (Except.ok "X") "T0" ⟨"Write a poem", "unknown", []⟩ =
      (HttpResponse.badRequest (Json.obj [("error", Json.str "Invalid model specified")]),
        none) :=
  ⟨c4_validation_rejections.1 "claude" "T0" [] true (Except.ok "X"),
   c4_validation_rejections.2 "Write a poem" "unknown" "T0" [] true (Except.ok "X")
     (by decide) (by decide) (by decide)⟩

/-- Claim C1, counterexample: with no API key configured,
`reframe("Write a poem", "claude")` answers status 200 with the error
field set, but the body is NOT the success shape: it has no `reframed`
(hence no `reframed.raw`), no `original_prompt` and no `metadata` field;
the original prompt is carried in a `restructured_prompt` field instead. -/
theorem c1_shape_counterexample :
    ((reframeHandler false (Except.ok "X") "2024-01-01T00:00:00.000Z"
        ⟨"Write a poem", "claude", []⟩).1.isOk = true)
  ∧ ((reframeHandler false (Except.ok "X") "2024-01-01T00:00:00.000Z"
        ⟨"Write a poem", "claude", []⟩).1.body.getField "reframed" = none)
  ∧ ((reframeHandler false (Except.ok "X") "2024-01-01T00:00:00.000Z"
        ⟨"Write a poem", "claude", []⟩).1.body.getField "original_prompt" = none)
  ∧ ((reframeHandler false (Except.ok "X") "2024-01-01T00:00:00.000Z"
        ⟨"Write a poem", "claude", []⟩).1.body.getField "metadata" = none)
  ∧ ((reframeHandler false (Except.ok "X") "2024-01-01T00:00:00.000Z"
        ⟨"Write a poem", "claude", []⟩).1.body.getField "restructured_prompt"
        = some (Json.str "Write a poem"))
  ∧ ((reframeHandler false (Except.ok "X") "2024-01-01T00:00:00.000Z"
        ⟨"Write a poem", "claude", []⟩).1.body.getField "error"
        = some (Json.str "API key not configured")) :=
  ⟨rfl, rfl, rfl, rfl, rfl, rfl⟩

/-- Claim C1 as amended: with no API key configured, any valid reframe
request (non-empty prompt, recognized model) answers status 200 with the
body `{restructured_prompt: <original prompt>, model, error: "API key not
configured", timestamp}`, and the completion gateway is never invoked. -/
theorem c1_noKey_passthrough (raw model ts : String)
    (clar : List (String × String)) (g : Except String String)
    (h1 : raw ≠ "") (h2 : model ∈ MODEL_TEMPLATES_keys) :
    reframeHandler false g ts ⟨raw, model, clar⟩ =
      (HttpResponse.ok (Json.obj [
        ("restructured_prompt", Json.str raw),
        ("model", Json.str model),
        ("error", Json.str "API key not configured"),
        ("timestamp", Json.str ts)]), none) := by
  simp [reframeHandler, MODEL_TEMPLATES_lookupTruthy, h1, h2]

/-- Witness for the amended C1 at `reframe("Write a poem", "claude")`. -/
theorem c1_noKey_passthrough_witness :
    reframeHandler false (Except.ok "X") "T0" ⟨"Write a poem", "claude", []⟩ =
      (HttpResponse.ok (Json.obj [
        ("restructured_prompt", Json.str "Write a poem"),
        ("model", Json.str "claude"),
        ("error", Json.str "API key not configured"),
        ("timestamp", Json.str "T0")]), none) :=
  c1_noKey_passthrough "Write a poem" "claude" "T0" [] (Except.ok "X")
    (by decide) (by decide)

/-- Claim C2: for every validated request (non-empty prompt, recognized
model) whose generation call fails, the handler still answers status 200
with the success shape: `reframed.raw` is the original prompt, the
`api_ready` payload is built from the original prompt, and the error
indicator field is set. -/
theorem c2_generation_failure_degraded (raw model ts msg : String)
    (clar : List (String × String))
    (h1 : raw ≠ "") (h2 : model ∈ MODEL_TEMPLATES_keys) :
    ((reframeHandler true (Except.error msg) ts ⟨raw, model, clar⟩).1.isOk = true)
  ∧ ((reframeHandler true (Except.error msg) ts ⟨raw, model, clar⟩).1.body.getField2
        "reframed" "raw" = some (Json.str raw))
  ∧ ((reframeHandler true (Except.error msg) ts ⟨raw, model, clar⟩).1.body.getField2
        "reframed" "api_ready" = some (apiReadyFor model raw))
  ∧ ((reframeHandler true (Except.error msg) ts ⟨raw, model, clar⟩).1.body.getField
        "error" = some (Json.str "Automatic restructuring unavailable")) := by
  have hr : (reframeHandler true (Except.error msg) ts ⟨raw, model, clar⟩).1 =
      HttpResponse.ok ((formatForModel model raw raw ts).setField "error"
        (Json.str "Automatic restructuring unavailable")) := by
    simp [reframeHandler, MODEL_TEMPLATES_lookupTruthy, h1, h2]
  refine ⟨?_, ?_, ?_, ?_⟩ <;> rw [hr] <;> rfl

/-- Witness for C2 at a concrete failing generation call. -/
theorem c2_generation_failure_degraded_witness :
    ((reframeHandler true (Except.error "boom") "T0"
        ⟨"Write a poem", "claude", []⟩).1.isOk = true)
  ∧ ((reframeHandler true (Except.error "boom") "T0"
        ⟨"Write a poem", "claude", []⟩).1.body.getField2
        "reframed" "raw" = some (Json.str "Write a poem"))
  ∧ ((reframeHandler true (Except.error "boom") "T0"
        ⟨"Write a poem", "claude", []⟩).1.body.getField2
        "reframed" "api_ready" = some (apiReadyFor "claude" "Write a poem"))
  ∧ ((reframeHandler true (Except.error "boom") "T0"
        ⟨"Write a poem", "claude", []⟩).1.body.getField
        "error" = some (Json.str "Automatic restructuring unavailable")) :=
  c2_generation_failure_degraded "Write a poem" "claude" "T0" "boom" []
    (by decide) (by decide)

/-- Claim C3, counterexample: the chatgpt system content is not literally
"everything before the boundary" (the source additionally trims it), and
with no boundary it is not the full text (again trimmed): on
"x \n# Task" the code yields "x" while the stated heuristic yields "x ",
and on " hi" the code yields "hi" while the stated heuristic yields " hi". -/
theorem c3_system_split_counterexample :
    chatgptSystemContent (formatForModel "chatgpt" "x \n# Task" "o" "T")
      = some (Json.str "x")
  ∧ extractSystemPromptSpec "x \n# Task" = "x "
  ∧ chatgptSystemContent (formatForModel "chatgpt" " hi" "o" "T")
      = some (Json.str "hi")
  ∧ extractSystemPromptSpec " hi" = " hi"
  ∧ ("x" : String) ≠ "x "
  ∧ ("hi" : String) ≠ " hi" :=
  ⟨rfl, rfl, rfl, rfl, by decide, by decide⟩

/-- Claim C3 as amended: the chatgpt `api_ready` system content is the
whitespace-trimmed join of the lines accumulated before the heading
boundary (all lines when no boundary exists), falling back to the full
restructured text when that trim is empty; the user task content is
always the full restructured text. -/
theorem c3_system_split_amended (restructured original ts : String) :
    chatgptSystemContent (formatForModel "chatgpt" restructured original ts)
      = some (Json.str (extractSystemPromptAmendedSpec restructured))
  ∧ chatgptUserContent (formatForModel "chatgpt" restructured original ts)
      = some (Json.str restructured) := by
  constructor
  · have h : chatgptSystemContent (formatForModel "chatgpt" restructured original ts)
        = some (Json.str (extractSystemPrompt restructured)) := rfl
    rw [h, extractSystemPrompt_eq_amendedSpec]
  · rfl
